import Mathlib

/-!
Shallow embedding of the Letta `SyncServer` core (src/letta/server/server.py):
the command processor operating on the in-context message buffer, the
load/step/persist event trace of `SyncServer._step`, the message-submission
validation boundary, the recall-memory cursor listing, and the
tool-from-source execution wrapper.  Python machine behaviour (dict lookups,
keyword-argument binding, list mutation from the tail) is made explicit.
-/

namespace Letta

/-- A tool-call descriptor attached to an assistant message.  The Python code
stores `arguments` as a JSON string; we model it at the parsed level as an
association list (the `rewrite` command round-trips it through
`json_loads`/`json_dumps`). -/
structure FnCall where
  arguments : List (String × String)
  deriving DecidableEq, Repr, Inhabited

/-- One entry of `letta_agent.messages`.  In `SyncServer._command` these are
dicts carrying at least a `role` string, a `content` string and optionally a
`function_call`. -/
structure Msg where
  role : String
  content : String
  functionCall : Option FnCall := none
  deriving DecidableEq, Repr, Inhabited

/-- Python exception values that the embedded code can raise. -/
inductive PyErr where
  | valueError (msg : String)
  | typeError (msg : String)
  | assertionError (msg : String)
  | attributeError (msg : String)
  deriving DecidableEq, Repr

/-- Remove the last `k` elements of a list: `k` successive `list.pop()`
calls in Python. -/
def removeLastN (l : List α) (k : Nat) : List α :=
  l.take (l.length - k)

/-- The `pop [n]` branch of `SyncServer._command` (server.py lines 530-543):
`n_messages = len(messages)`; if `n_messages <= 2` no-op; elif
`n_messages - pop_amount < 2` (Python int arithmetic) no-op; else pop the
last `min(pop_amount, len(messages))` messages. -/
def popCmd (pop_amount : Nat) (msgs : List Msg) : List Msg :=
  let n_messages := msgs.length
  if n_messages ≤ 2 then msgs
  else if (n_messages : Int) - (pop_amount : Int) < 2 then msgs
  else removeLastN msgs (min pop_amount n_messages)

/-- The `retry` loop of `SyncServer._command` (lines 545-554), expressed on
the reversed buffer: repeatedly pop the last message; once a user-role
message has been popped, stop. -/
def retryRev : List Msg → List Msg
  | [] => []
  | m :: rest => if m.role == "user" then rest else retryRev rest

/-- The `retry` branch of `SyncServer._command`: while the buffer is
non-empty, pop from the tail; popping a user-role message breaks the loop. -/
def retryCmd (msgs : List Msg) : List Msg :=
  (retryRev msgs.reverse).reverse

/-- The `for x in range(len(messages) - 1, 0, -1)` scan of the `rethink`
branch (lines 556-565): `x` counts down and index `0` is never visited;
the first assistant-role message found gets its `content` replaced and the
loop breaks. -/
def rethinkAux (text : String) (msgs : List Msg) : Nat → List Msg
  | 0 => msgs
  | x + 1 =>
    if (msgs.getD (x + 1) default).role == "assistant" then
      msgs.set (x + 1) { msgs.getD (x + 1) default with content := text }
    else
      rethinkAux text msgs x

/-- The `rethink <text>` branch of `SyncServer._command`. -/
def rethinkCmd (text : String) (msgs : List Msg) : List Msg :=
  rethinkAux text msgs (msgs.length - 1)

/-- Set key `k` to `v` in an association list: `args[k] = v` on the parsed
JSON mapping. -/
def setKey (k v : String) : List (String × String) → List (String × String)
  | [] => [(k, v)]
  | (k₀, v₀) :: rest => if k₀ == k then (k₀, v) :: rest else (k₀, v₀) :: setKey k v rest

/-- The countdown scan of the `rewrite` branch (lines 567-578).  At the first
assistant-role message from the tail (index ≥ 1) the code reads
`messages[x].get("function_call").get("arguments")`: if the message has no
`function_call`, the first `get` yields `None` and the second raises
`AttributeError`; otherwise the `message` key of the parsed arguments is
overwritten and the loop breaks. -/
def rewriteAux (text : String) (msgs : List Msg) : Nat → Except PyErr (List Msg)
  | 0 => .ok msgs
  | x + 1 =>
    if (msgs.getD (x + 1) default).role == "assistant" then
      match (msgs.getD (x + 1) default).functionCall with
      | none => .error (.attributeError "NoneType object has no attribute get")
      | some fc =>
        .ok (msgs.set (x + 1)
          { msgs.getD (x + 1) default with
            functionCall := some ⟨setKey "message" text fc.arguments⟩ })
    else
      rewriteAux text msgs x

/-- The `rewrite <text>` branch of `SyncServer._command`. -/
def rewriteCmd (text : String) (msgs : List Msg) : Except PyErr (List Msg) :=
  rewriteAux text msgs (msgs.length - 1)

/-- The buffer invariant claimed by the spec: the in-context buffer holds
either 0 or at least 2 messages. -/
def bufferInv (msgs : List Msg) : Prop :=
  msgs.length = 0 ∨ 2 ≤ msgs.length

instance (msgs : List Msg) : Decidable (bufferInv msgs) := by
  unfold bufferInv; infer_instance

/-- Concrete message constructors used in example buffers. -/
def sysMsg : Msg := { role := "system", content := "sys" }

def userMsg : Msg := { role := "user", content := "hi" }

def asstMsg (s : String) : Msg := { role := "assistant", content := s }

def toolMsg : Msg := { role := "tool", content := "result" }

/-- The spec example buffer `[system, user, assistant, tool, assistant]`. -/
def exBuf5 : List Msg := [sysMsg, userMsg, asstMsg "A", toolMsg, asstMsg "B"]

/-- A two-message buffer `[system, user]`. -/
def exBuf2 : List Msg := [sysMsg, userMsg]

/-! Instrumented event trace of `SyncServer._step`

`load_agent` (lines 399-428) acquires the per-agent lock, loads the agent
state, calls `save_agent` and releases the lock when its `with agent_lock`
block ends.  `_step` (lines 430-478) calls `load_agent`, then
`letta_agent.step(...)`, then `save_agent` again — the latter two after
`load_agent` has returned. -/

/-- Events recorded by an instrumented gateway around one `_step` call for a
given agent id. -/
inductive Ev where
  | acquire (agent_id : String)
  | release (agent_id : String)
  | loadState (agent_id : String)
  | stepExec (agent_id : String)
  | persist (agent_id : String)
  deriving DecidableEq, Repr, Inhabited

def Ev.isAcquire : Ev → Bool
  | .acquire _ => true
  | _ => false

def Ev.isRelease : Ev → Bool
  | .release _ => true
  | _ => false

/-- Event classifier for the load, step-execution and persist events — the
span the spec says must run under the lock. -/
def Ev.isSpanEvent : Ev → Bool
  | .loadState _ => true
  | .stepExec _ => true
  | .persist _ => true
  | _ => false

/-- The event trace of `SyncServer.load_agent`: the lock is acquired, the
state is loaded, `save_agent` runs, and the lock is released when the
`with agent_lock` block exits. -/
def loadAgentTrace (agent_id : String) : List Ev :=
  [.acquire agent_id, .loadState agent_id, .persist agent_id, .release agent_id]

/-- The event trace of `SyncServer._step`: first `load_agent` (with its
internal lock scope), then `letta_agent.step(...)`, then `save_agent`. -/
def stepTrace (agent_id : String) : List Ev :=
  loadAgentTrace agent_id ++ [.stepExec agent_id, .persist agent_id]

/-- Whether the event at position `i` of trace `tr` executes while the
per-agent lock is held: strictly more acquisitions than releases have
happened before it. -/
def occursUnderLock (tr : List Ev) (i : Nat) : Bool :=
  (tr.take i).countP Ev.isRelease < (tr.take i).countP Ev.isAcquire

/-! Message-submission validation boundary

`user_message` (lines 598-648) and `system_message` (lines 650-712) look up
the user and the agent, then — for a string payload — reject the empty
string and any string starting with the command marker `/` by raising
`ValueError`, all before calling `_step` (which is where `load_agent` and
the lock acquisition live). -/

/-- Usage statistics returned by a step invocation; `LettaUsageStatistics()`
defaults all counts to zero. -/
structure UsageStats where
  step_count : Nat := 0
  deriving DecidableEq, Repr, Inhabited

/-- Python `message.startswith("/")` for the one-character command marker:
the first character of the string is `/`. -/
def startsWithSlash (message : String) : Bool :=
  message.data.head? == some '/'

/-- `SyncServer.user_message` on a string payload, instrumented with the
event trace it produces.  `userExists`/`agentExists` model the
`get_user_by_id`/`get_agent_by_id` lookups that precede validation. -/
def user_message (userExists agentExists : Bool) (agent_id : String)
    (message : String) : List Ev × Except PyErr UsageStats :=
  if !userExists then ([], .error (.valueError "User does not exist"))
  else if !agentExists then ([], .error (.valueError "Agent does not exist"))
  else if message.length = 0 then ([], .error (.valueError "Invalid input"))
  else if startsWithSlash message then ([], .error (.valueError "Invalid input"))
  else (stepTrace agent_id, .ok { step_count := 1 })

/-- `SyncServer.system_message` on a string payload, instrumented the same
way. -/
def system_message (userExists agentExists : Bool) (agent_id : String)
    (message : String) : List Ev × Except PyErr UsageStats :=
  if !userExists then ([], .error (.valueError "User does not exist"))
  else if !agentExists then ([], .error (.valueError "Agent does not exist"))
  else if message.length = 0 then ([], .error (.valueError "Invalid input"))
  else if startsWithSlash message then ([], .error (.valueError "Invalid input"))
  else (stepTrace agent_id, .ok { step_count := 1 })

/-- Is the outcome a raised `ValueError`? -/
def isValueError : Except PyErr α → Bool
  | .error (.valueError _) => true
  | _ => false

/-! Keyword-argument binding of the re-entrant command branches

`_step` is declared as `_step(self, actor, agent_id, input_messages,
interface=None)` (lines 430-437).  The `heartbeat` and `memorywarning`
branches of `_command` (lines 585-591) invoke it as
`self._step(actor=actor, agent_id=agent_id, input_message=input_message)`.
Python raises `TypeError` when a keyword argument names no parameter or a
required parameter is missing. -/

/-- Parameter names of `SyncServer._step` (excluding `self`). -/
def stepParamNames : List String := ["actor", "agent_id", "input_messages", "interface"]

/-- Parameters of `SyncServer._step` without a default value. -/
def stepRequiredParams : List String := ["actor", "agent_id", "input_messages"]

/-- Keyword names used at the `heartbeat` and `memorywarning` call sites. -/
def reentrantCallKwargs : List String := ["actor", "agent_id", "input_message"]

/-- Python keyword-argument binding: every keyword must name a parameter and
every parameter without a default must receive a value. -/
def kwargsBind (params required kwargs : List String) : Bool :=
  kwargs.all params.contains && required.all kwargs.contains

/-- The `heartbeat` branch of `_command`: synthesize the control message,
then call `_step` with the recorded keyword names; on binding failure Python
raises `TypeError` before `_step` runs. -/
def commandHeartbeat : Except PyErr UsageStats :=
  if kwargsBind stepParamNames stepRequiredParams reentrantCallKwargs then
    .ok { step_count := 1 }
  else
    .error (.typeError "unexpected keyword argument input_message")

/-- The `memorywarning` branch of `_command`, identical call shape. -/
def commandMemoryWarning : Except PyErr UsageStats :=
  if kwargsBind stepParamNames stepRequiredParams reentrantCallKwargs then
    .ok { step_count := 1 }
  else
    .error (.typeError "unexpected keyword argument input_message")

/-! Recall-memory cursor listing -/

/-- A recall-memory record: identifier and creation timestamp. -/
structure RecallRec where
  rid : Nat
  createdAt : Nat
  deriving DecidableEq, Repr, Inhabited

/-- Timestamp window test used by the message listing: strictly after
`start_date` (resolved from `after`) and strictly before `end_date`
(resolved from `before`). -/
def inDateWindow (start_date end_date : Option Nat) (r : RecallRec) : Bool :=
  (match start_date with
   | none => true
   | some s => s < r.createdAt) &&
  (match end_date with
   | none => true
   | some e => r.createdAt < e)

/-- Modelled from the spec: `MessageManager.list_messages_for_agent` is repo
code not under src/.  Per §4.4 the Recall Memory contract is
`list_messages(agent_id, start_date?, end_date?, limit, ascending) → ordered
sequence` with timestamp-bounded cursors, and per §8.7 `ascending=true`
reproduces creation order, `ascending=false` its exact reverse, with bounds
strict.  The store is the agent's message log in creation order; the listing
filters to the date window, orders ascending or descending, and returns the
first `limit` records of that order. -/
def list_messages_for_agent (store : List RecallRec)
    (start_date end_date : Option Nat) (limit : Nat) (ascending : Bool) :
    List RecallRec :=
  let filtered := store.filter (inDateWindow start_date end_date)
  if ascending then filtered.take limit else filtered.reverse.take limit

/-- `SyncServer.get_agent_recall_cursor` (lines 1057-1103) at the
`return_message_object=True` level: resolve `after`/`before` to timestamps,
call the manager with `ascending = not reverse`, and finally reverse the
records when `reverse` is set. -/
def get_agent_recall_cursor (store : List RecallRec)
    (start_date end_date : Option Nat) (limit : Nat) (reverse : Bool) :
    List RecallRec :=
  let records := list_messages_for_agent store start_date end_date limit (!reverse)
  if reverse then records.reverse else records

/-- A concrete three-record store in creation order. -/
def exStore3 : List RecallRec := [⟨1, 10⟩, ⟨2, 20⟩, ⟨3, 30⟩]

/-! Tool execution from source (`run_tool_from_source`) -/

/-- Result of `ToolExecutionSandbox(...).run(...)`: the function return
value (already stringified), captured stdout lines and captured stderr
lines. -/
structure SandboxRunResult where
  func_return : String
  stdout : List String
  stderr : List String
  deriving DecidableEq, Repr, Inhabited

/-- Outcome of the sandbox call: either a result, or a raised exception
carrying its message and its formatted traceback text. -/
inductive SandboxOutcome where
  | ran (r : SandboxRunResult)
  | raised (msg : String) (tb : String)
  deriving DecidableEq, Repr, Inhabited

/-- The `FunctionReturn` schema fields populated by `run_tool_from_source`
(the external `date` field is omitted). -/
structure FunctionReturn where
  id : String
  function_call_id : String
  status : String
  function_return : String
  stdout : List String
  stderr : List String
  deriving DecidableEq, Repr, Inhabited

/-- Modelled from the spec: `MAX_ERROR_MESSAGE_CHAR_LIMIT` lives in
`letta.constants`, which is not under src/; the spec only calls it "the
configured character limit".  Its concrete value does not affect any
theorem below. -/
def MAX_ERROR_MESSAGE_CHAR_LIMIT : Nat := 500

/-- Python string slicing `s[:n]` at the character level. -/
def pySliceTo (s : String) (n : Nat) : String :=
  String.mk (s.data.take n)

/-- `SyncServer.get_error_msg_for_func_return` (lines 1489-1496): build
`f"Error executing tool {tool_name}: {exception_message}"` and truncate it
to `MAX_ERROR_MESSAGE_CHAR_LIMIT` characters when longer. -/
def get_error_msg_for_func_return (tool_name exception_message : String) : String :=
  let error_msg := "Error executing tool " ++ tool_name ++ ": " ++ exception_message
  if MAX_ERROR_MESSAGE_CHAR_LIMIT < error_msg.length then
    pySliceTo error_msg MAX_ERROR_MESSAGE_CHAR_LIMIT
  else error_msg

/-- Python truthiness of a stripped string: `s.strip()` is truthy iff some
non-whitespace character remains. -/
def stripTruthy (s : String) : Bool :=
  s.trim ≠ ""

/-- The `try`/`except` body of `run_tool_from_source` around the sandbox
call (lines 1447-1487): it always produces a `FunctionReturn`.  On a raised
sandbox exception the except-arm builds an error return; otherwise
stdout/stderr are filtered to lines with non-whitespace content and the
last stderr line (when any) marks the return as an error. -/
def run_tool_sandbox_part (name : String) (sandbox : SandboxOutcome) :
    FunctionReturn :=
  match sandbox with
  | .raised msg tb =>
    { id := "null", function_call_id := "null", status := "error",
      function_return := get_error_msg_for_func_return name msg,
      stdout := [""], stderr := [tb] }
  | .ran r =>
    match (r.stderr.filter stripTruthy).getLast? with
    | some last =>
      { id := "null", function_call_id := "null", status := "error",
        function_return := get_error_msg_for_func_return name last,
        stdout := r.stdout.filter stripTruthy,
        stderr := r.stderr.filter stripTruthy }
    | none =>
      { id := "null", function_call_id := "null", status := "success",
        function_return := r.func_return,
        stdout := r.stdout.filter stripTruthy,
        stderr := r.stderr.filter stripTruthy }

/-- `SyncServer.run_tool_from_source` (lines 1418-1487).
`tool_args_valid` models whether `json.loads(tool_args)` succeeds (the JSON
parser is Python stdlib); `resolved_tool_name` models the `name` field of
the constructed `Tool` object — the Tool schema (repo code not under src/)
may derive a missing name from the source code, so the resolved name is an
input here; the `assert tool.name is not None` in src/ raises
`AssertionError` when it is `None`.  The sandbox outcome is an input to the
`try` body, which always returns a `FunctionReturn`. -/
def run_tool_from_source (tool_args_valid : Bool)
    (tool_source_type : Option String) (resolved_tool_name : Option String)
    (sandbox : SandboxOutcome) : Except PyErr FunctionReturn :=
  if !tool_args_valid then
    .error (.valueError "Invalid JSON string for tool_args")
  else if tool_source_type != none && tool_source_type != some "python" then
    .error (.valueError "Only Python source code is supported at this time")
  else
    match resolved_tool_name with
    | none => .error (.assertionError "Failed to create tool object")
    | some name => .ok (run_tool_sandbox_part name sandbox)

/-! Spec-side helper definitions used to state the theorems -/

/-- The role string of the message at index `i` (default message beyond the
end). -/
def roleAt (msgs : List Msg) (i : Nat) : String :=
  (msgs.getD i default).role

/-- Is this a user-role message? -/
def isUserRole (m : Msg) : Bool :=
  m.role == "user"

/-- Index of the first element satisfying `p`, if any. -/
def findFirstIdx (p : Msg → Bool) : List Msg → Option Nat
  | [] => none
  | m :: rest => if p m then some 0 else (findFirstIdx p rest).map (· + 1)

/-- Did the sandbox call fail, either by raising or by emitting a
non-whitespace stderr line? -/
def sandboxHasError : SandboxOutcome → Bool
  | .raised _ _ => true
  | .ran r => !(r.stderr.filter stripTruthy).isEmpty

/-! Helper lemmas -/

lemma length_removeLastN (l : List α) (k : Nat) :
    (removeLastN l k).length = l.length - k := by
  simp only [removeLastN, List.length_take]
  omega

lemma popCmd_noop_small (n : Nat) (msgs : List Msg) (h : msgs.length ≤ 2) :
    popCmd n msgs = msgs := by
  simp only [popCmd]
  rw [if_pos h]

lemma popCmd_noop_refuse (n : Nat) (msgs : List Msg) (h1 : 2 < msgs.length)
    (h2 : msgs.length < n + 2) : popCmd n msgs = msgs := by
  simp only [popCmd]
  rw [if_neg (by omega), if_pos (by omega)]

lemma popCmd_pops (n : Nat) (msgs : List Msg) (h1 : 2 < msgs.length)
    (h2 : n + 2 ≤ msgs.length) : popCmd n msgs = removeLastN msgs n := by
  simp only [popCmd]
  rw [if_neg (by omega), if_neg (by omega), Nat.min_eq_left (by omega)]

lemma rethinkAux_length (text : String) (msgs : List Msg) (x : Nat) :
    (rethinkAux text msgs x).length = msgs.length := by
  induction x with
  | zero => rfl
  | succ x ih =>
    unfold rethinkAux
    split
    · exact List.length_set ..
    · exact ih

lemma rewriteAux_ok_length (text : String) (msgs : List Msg) (x : Nat) :
    ∀ out, rewriteAux text msgs x = .ok out → out.length = msgs.length := by
  induction x with
  | zero =>
    intro out h
    unfold rewriteAux at h
    cases h
    rfl
  | succ x ih =>
    intro out h
    unfold rewriteAux at h
    split at h
    · split at h
      · cases h
      · cases h
        exact List.length_set ..
    · exact ih out h

lemma retryRev_spec (l : List Msg) :
    retryRev l = match findFirstIdx isUserRole l with
      | none => []
      | some j => l.drop (j + 1) := by
  induction l with
  | nil => rfl
  | cons m rest ih =>
    by_cases h : m.role == "user"
    · simp [retryRev, findFirstIdx, isUserRole, h]
    · simp only [retryRev, findFirstIdx, isUserRole, h, if_neg, Bool.false_eq_true,
        if_false]
      rw [ih]
      cases hf : findFirstIdx isUserRole rest <;> simp [hf, List.drop_succ_cons]

lemma rethinkAux_notFound (text : String) (msgs : List Msg) (x : Nat)
    (h : ∀ k, 1 ≤ k → k ≤ x → roleAt msgs k ≠ "assistant") :
    rethinkAux text msgs x = msgs := by
  induction x with
  | zero => rfl
  | succ x ih =>
    unfold rethinkAux
    rw [if_neg (by
      simp only [beq_iff_eq]
      exact h (x + 1) (by omega) le_rfl)]
    exact ih (fun k h1 h2 => h k h1 (by omega))

lemma rethinkAux_found (text : String) (msgs : List Msg) (i : Nat)
    (h1 : 1 ≤ i) (hrole : roleAt msgs i = "assistant") (x : Nat) (hix : i ≤ x)
    (hafter : ∀ j, i < j → j ≤ x → roleAt msgs j ≠ "assistant") :
    rethinkAux text msgs x = msgs.set i { msgs.getD i default with content := text } := by
  induction x with
  | zero => omega
  | succ x ih =>
    by_cases hcase : i = x + 1
    · subst hcase
      unfold rethinkAux
      rw [if_pos (by simp only [beq_iff_eq]; exact hrole)]
    · unfold rethinkAux
      rw [if_neg (by
        simp only [beq_iff_eq]
        exact hafter (x + 1) (by omega) le_rfl)]
      exact ih (by omega) (fun j hj1 hj2 => hafter j hj1 (by omega))

lemma get_error_msg_length_le (tool_name emsg : String) :
    (get_error_msg_for_func_return tool_name emsg).length ≤
      MAX_ERROR_MESSAGE_CHAR_LIMIT := by
  simp only [get_error_msg_for_func_return]
  split_ifs with h
  · simp only [pySliceTo, String.length, List.length_take]
    omega
  · omega

/-! Claim theorems -/

/-- C1 (counterexample): in the instrumented trace of `SyncServer._step` for
agent `agent-1`, it is not the case that every load/step/persist event
executes while the per-agent lock is held: the `Agent.step` execution (and
the post-step persist) happen after the lock was released inside
`load_agent`. -/
theorem c1_full_span_lock_counterexample :
    ¬ (∀ i, i < (stepTrace "agent-1").length →
        Ev.isSpanEvent ((stepTrace "agent-1").getD i default) = true →
        occursUnderLock (stepTrace "agent-1") i = true) := by
  intro h
  exact absurd (h 4 (by decide) (by decide)) (by decide)

/-- C1 (amended): for every agent id, the per-agent lock acquired inside
`load_agent` covers only the load phase (state load and the initial
`save_agent`); it is released when `load_agent` returns, and the
`Agent.step` call and the post-step `save_agent` of `_step` execute after
the release, outside the lock. -/
theorem c1_lock_covers_only_load_phase (agent_id : String) :
    stepTrace agent_id =
      [.acquire agent_id, .loadState agent_id, .persist agent_id,
       .release agent_id, .stepExec agent_id, .persist agent_id] ∧
    occursUnderLock (stepTrace agent_id) 1 = true ∧
    occursUnderLock (stepTrace agent_id) 2 = true ∧
    occursUnderLock (stepTrace agent_id) 4 = false ∧
    occursUnderLock (stepTrace agent_id) 5 = false :=
  ⟨rfl, rfl, rfl, rfl, rfl⟩

/-- C2 (counterexample): on a buffer of size 5, `pop 10` is a no-op — the
buffer stays at size 5 instead of shrinking to size 2 as the claim
predicts. -/
theorem c2_pop_counterexample :
    popCmd 10 exBuf5 = exBuf5 ∧ (popCmd 10 exBuf5).length ≠ 2 := by
  decide

/-- C2 (amended): `pop n` is a no-op when the buffer length `m` is at most 2
and also when `n > m − 2` (the code refuses instead of clamping); only when
`n ≤ m − 2` does it remove exactly `n` messages from the tail, leaving
`m − n ≥ 2` messages. -/
theorem c2_pop_refuses_or_pops_exactly (n : Nat) (msgs : List Msg) :
    (msgs.length ≤ 2 → popCmd n msgs = msgs) ∧
    (2 < msgs.length → msgs.length < n + 2 → popCmd n msgs = msgs) ∧
    (2 < msgs.length → n + 2 ≤ msgs.length →
      popCmd n msgs = removeLastN msgs n ∧
      (popCmd n msgs).length = msgs.length - n ∧
      2 ≤ (popCmd n msgs).length) := by
  refine ⟨popCmd_noop_small n msgs, popCmd_noop_refuse n msgs, ?_⟩
  intro h1 h2
  have hp := popCmd_pops n msgs h1 h2
  refine ⟨hp, ?_, ?_⟩
  · rw [hp, length_removeLastN]
  · rw [hp, length_removeLastN]
    omega

/-- C2 (witness): the amended statement evaluated on the two example buffers
of the spec and on an in-range pop. -/
theorem c2_pop_refuses_or_pops_exactly_witness :
    popCmd 10 exBuf5 = exBuf5 ∧ popCmd 1 exBuf2 = exBuf2 ∧
    popCmd 3 exBuf5 = removeLastN exBuf5 3 :=
  ⟨(c2_pop_refuses_or_pops_exactly 10 exBuf5).2.1 (by decide) (by decide),
   (c2_pop_refuses_or_pops_exactly 1 exBuf2).1 (by decide),
   ((c2_pop_refuses_or_pops_exactly 3 exBuf5).2.2 (by decide) (by decide)).1⟩

/-- C3 (code bug): both re-entrant command branches call `_step` with the
keyword `input_message`, which names no parameter of `_step`
(`input_messages` is required); Python keyword binding fails, so
`_command("heartbeat")` and `_command("memorywarning")` raise `TypeError`
instead of re-entering the step loop and returning its usage statistics. -/
theorem c3_reentrant_commands_raise_type_error :
    commandHeartbeat =
      .error (.typeError "unexpected keyword argument input_message") ∧
    commandMemoryWarning =
      .error (.typeError "unexpected keyword argument input_message") :=
  ⟨rfl, rfl⟩

/-- C4 (counterexample): the buffer `[system, user]` satisfies the 0-or-≥2
invariant, but `retry` pops both the user message (inclusive) leaving
exactly one message, violating it. -/
theorem c4_invariant_counterexample :
    bufferInv exBuf2 ∧ ¬ bufferInv (retryCmd exBuf2) := by
  decide

/-- C4 (amended): the 0-or-≥2 invariant is preserved by the `pop`,
`rethink` and `rewrite` command mutations; it is not preserved by `retry`,
which may leave exactly one message. -/
theorem c4_invariant_preserved_except_retry (n : Nat) (text : String)
    (msgs : List Msg) (h : bufferInv msgs) :
    bufferInv (popCmd n msgs) ∧ bufferInv (rethinkCmd text msgs) ∧
    (∀ out, rewriteCmd text msgs = .ok out → bufferInv out) := by
  refine ⟨?_, ?_, ?_⟩
  · by_cases h1 : msgs.length ≤ 2
    · rw [popCmd_noop_small n msgs h1]; exact h
    · by_cases h2 : msgs.length < n + 2
      · rw [popCmd_noop_refuse n msgs (by omega) h2]; exact h
      · have hp := popCmd_pops n msgs (by omega) (by omega)
        right
        rw [hp, length_removeLastN]
        omega
  · have hl : (rethinkCmd text msgs).length = msgs.length := by
      unfold rethinkCmd
      exact rethinkAux_length text msgs _
    unfold bufferInv at h ⊢
    rw [hl]
    exact h
  · intro out hout
    have hl := rewriteAux_ok_length text msgs _ out hout
    unfold bufferInv at h ⊢
    rw [hl]
    exact h

/-- C4 (witness): the amended statement evaluated on the spec example
buffer. -/
theorem c4_invariant_preserved_except_retry_witness :
    bufferInv (popCmd 3 exBuf5) ∧ bufferInv (rethinkCmd "C" exBuf5) := by
  have h := c4_invariant_preserved_except_retry 3 "C" exBuf5 (by decide)
  exact ⟨h.1, h.2.1⟩

/-- C5 (confirmed): `retry` pops from the tail until a user-role message has
been popped (inclusive) and stops — if the first user-role message counting
from the tail sits `j` messages in, the result is the buffer with those `j`
messages and the user message removed; with no user-role message the buffer
empties; on the spec example buffer the result is `[system]`. -/
theorem c5_retry_pops_through_last_user (msgs : List Msg) :
    (findFirstIdx isUserRole msgs.reverse = none → retryCmd msgs = []) ∧
    (∀ j, findFirstIdx isUserRole msgs.reverse = some j →
      retryCmd msgs = (msgs.reverse.drop (j + 1)).reverse) ∧
    retryCmd exBuf5 = [sysMsg] := by
  refine ⟨?_, ?_, by decide⟩
  · intro h
    unfold retryCmd
    rw [retryRev_spec, h]
    rfl
  · intro j h
    unfold retryCmd
    rw [retryRev_spec, h]

/-- C5 (witness): the theorem applied to the buffer `[system, user]`, whose
first user message from the tail is at reversed index 0. -/
theorem c5_retry_pops_through_last_user_witness :
    retryCmd exBuf2 = (exBuf2.reverse.drop 1).reverse :=
  (c5_retry_pops_through_last_user exBuf2).2.1 0 (by decide)

/-- C6 (confirmed): `rethink <text>` scans backward from the tail, excluding
index 0, for the nearest assistant-role message and replaces only that
message's content with the text (via `List.set`, leaving every other
message unchanged); with no assistant-role message in that range the buffer
is unchanged; on the spec example only the last assistant message becomes
`"C"`. -/
theorem c6_rethink_targets_last_assistant (text : String) (msgs : List Msg) :
    ((∀ i, 1 ≤ i → i < msgs.length → roleAt msgs i ≠ "assistant") →
      rethinkCmd text msgs = msgs) ∧
    (∀ i, 1 ≤ i → i < msgs.length → roleAt msgs i = "assistant" →
      (∀ j, i < j → j < msgs.length → roleAt msgs j ≠ "assistant") →
      rethinkCmd text msgs =
        msgs.set i { msgs.getD i default with content := text }) ∧
    rethinkCmd "C" exBuf5 = [sysMsg, userMsg, asstMsg "A", toolMsg, asstMsg "C"] := by
  refine ⟨?_, ?_, by decide⟩
  · intro h
    unfold rethinkCmd
    exact rethinkAux_notFound text msgs _ (fun k h1 h2 => h k h1 (by omega))
  · intro i h1 h2 hrole hafter
    unfold rethinkCmd
    exact rethinkAux_found text msgs i h1 hrole (msgs.length - 1) (by omega)
      (fun j hj1 hj2 => hafter j hj1 (by omega))

/-- C6 (witness): the theorem applied to the spec example buffer at the last
assistant index 4. -/
theorem c6_rethink_targets_last_assistant_witness :
    rethinkCmd "C" exBuf5 =
      exBuf5.set 4 { exBuf5.getD 4 default with content := "C" } :=
  (c6_rethink_targets_last_assistant "C" exBuf5).2.1 4 (by decide) (by decide)
    (by decide)
    (fun j hj1 hj2 => by
      have h5 : exBuf5.length = 5 := rfl
      omega)

/-- C7 (counterexample): on a three-record store with `limit = 2`,
`reverse=true` returns records 2 and 3 while `reverse=false` returns
records 1 and 2 — record 3 is selected only by one of them — and the
`reverse=true` output is not the reverse of the `reverse=false` output. -/
theorem c7_reverse_counterexample :
    get_agent_recall_cursor exStore3 none none 2 true ≠
      (get_agent_recall_cursor exStore3 none none 2 false).reverse ∧
    (⟨3, 30⟩ : RecallRec) ∈ get_agent_recall_cursor exStore3 none none 2 true ∧
    (⟨3, 30⟩ : RecallRec) ∉ get_agent_recall_cursor exStore3 none none 2 false := by
  decide

/-- C7 (amended): with identical bounds and limit, `reverse=false` returns
the earliest `limit` in-window records in ascending creation order, while
`reverse=true` returns the latest `limit` in-window records — and, because
the final reversal cancels the descending fetch, also in ascending order;
whenever all in-window records fit within `limit` the two calls return
exactly the same list. -/
theorem c7_reverse_selects_latest_same_order (store : List RecallRec)
    (sd ed : Option Nat) (limit : Nat) :
    get_agent_recall_cursor store sd ed limit false =
      (store.filter (inDateWindow sd ed)).take limit ∧
    get_agent_recall_cursor store sd ed limit true =
      ((store.filter (inDateWindow sd ed)).reverse.take limit).reverse ∧
    ((store.filter (inDateWindow sd ed)).length ≤ limit →
      get_agent_recall_cursor store sd ed limit true =
        get_agent_recall_cursor store sd ed limit false) := by
  refine ⟨rfl, rfl, ?_⟩
  intro h
  have h1 : get_agent_recall_cursor store sd ed limit false =
      (store.filter (inDateWindow sd ed)).take limit := rfl
  have h2 : get_agent_recall_cursor store sd ed limit true =
      ((store.filter (inDateWindow sd ed)).reverse.take limit).reverse := rfl
  rw [h1, h2, List.take_of_length_le (by simpa using h), List.reverse_reverse,
    List.take_of_length_le h]

/-- C7 (witness): the amended statement's within-limit case evaluated on the
three-record store with the default limit 100. -/
theorem c7_reverse_selects_latest_same_order_witness :
    get_agent_recall_cursor exStore3 none none 100 true =
      get_agent_recall_cursor exStore3 none none 100 false :=
  (c7_reverse_selects_latest_same_order exStore3 none none 100).2.2 (by decide)

lemma user_message_rejects (u a : Bool) (aid msg : String)
    (h : msg.length = 0 ∨ startsWithSlash msg = true) :
    (user_message u a aid msg).1 = [] ∧
    isValueError (user_message u a aid msg).2 = true := by
  cases u with
  | false => exact ⟨rfl, rfl⟩
  | true =>
    cases a with
    | false => exact ⟨rfl, rfl⟩
    | true =>
      by_cases hl : msg.length = 0
      · simp [user_message, hl, isValueError]
      · have hs : startsWithSlash msg = true := h.resolve_left hl
        simp [user_message, hl, hs, isValueError]

lemma system_message_rejects (u a : Bool) (aid msg : String)
    (h : msg.length = 0 ∨ startsWithSlash msg = true) :
    (system_message u a aid msg).1 = [] ∧
    isValueError (system_message u a aid msg).2 = true := by
  cases u with
  | false => exact ⟨rfl, rfl⟩
  | true =>
    cases a with
    | false => exact ⟨rfl, rfl⟩
    | true =>
      by_cases hl : msg.length = 0
      · simp [system_message, hl, isValueError]
      · have hs : startsWithSlash msg = true := h.resolve_left hl
        simp [system_message, hl, hs, isValueError]

/-- C8 (confirmed): a string message that is empty or starts with the
command marker `/` makes both `user_message` and `system_message` fail with
a `ValueError`, producing no events at all — in particular no lock
acquisition and no state mutation. -/
theorem c8_validation_rejects_before_lock (userExists agentExists : Bool)
    (agent_id message : String)
    (h : message.length = 0 ∨ startsWithSlash message = true) :
    (user_message userExists agentExists agent_id message).1 = [] ∧
    isValueError (user_message userExists agentExists agent_id message).2 = true ∧
    (system_message userExists agentExists agent_id message).1 = [] ∧
    isValueError (system_message userExists agentExists agent_id message).2 = true := by
  obtain ⟨h1, h2⟩ := user_message_rejects userExists agentExists agent_id message h
  obtain ⟨h3, h4⟩ := system_message_rejects userExists agentExists agent_id message h
  exact ⟨h1, h2, h3, h4⟩

/-- C8 (witness): the command-prefixed message `/retry` submitted with an
existing user and agent. -/
theorem c8_validation_rejects_before_lock_witness :
    (user_message true true "agent-1" "/retry").1 = [] ∧
    isValueError (user_message true true "agent-1" "/retry").2 = true ∧
    (system_message true true "agent-1" "/retry").1 = [] ∧
    isValueError (system_message true true "agent-1" "/retry").2 = true :=
  c8_validation_rejects_before_lock true true "agent-1" "/retry"
    (Or.inr (by decide))

lemma run_tool_sandbox_part_status (name : String) (sandbox : SandboxOutcome) :
    (run_tool_sandbox_part name sandbox).status =
      if sandboxHasError sandbox then "error" else "success" := by
  cases sandbox with
  | raised m tb => rfl
  | ran r =>
    cases hg : (r.stderr.filter stripTruthy).getLast? with
    | none =>
      have hnil : r.stderr.filter stripTruthy = [] :=
        List.getLast?_eq_none_iff.mp hg
      simp only [run_tool_sandbox_part]
      rw [hg]
      simp [sandboxHasError, hnil]
    | some last =>
      have hne : r.stderr.filter stripTruthy ≠ [] := by
        intro hnil
        rw [hnil] at hg
        simp at hg
      simp only [run_tool_sandbox_part]
      rw [hg]
      simp only [sandboxHasError]
      rw [if_pos (by simp [List.isEmpty_iff, hne])]

lemma run_tool_sandbox_part_err (name : String) (sandbox : SandboxOutcome)
    (h : sandboxHasError sandbox = true) :
    (run_tool_sandbox_part name sandbox).status = "error" ∧
    (run_tool_sandbox_part name sandbox).function_return.length ≤
      MAX_ERROR_MESSAGE_CHAR_LIMIT := by
  cases sandbox with
  | raised m tb => exact ⟨rfl, get_error_msg_length_le name m⟩
  | ran r =>
    cases hg : (r.stderr.filter stripTruthy).getLast? with
    | none =>
      have hnil : r.stderr.filter stripTruthy = [] :=
        List.getLast?_eq_none_iff.mp hg
      rw [sandboxHasError] at h
      simp [List.isEmpty_iff, hnil] at h
    | some last =>
      constructor
      · simp only [run_tool_sandbox_part]
        rw [hg]
      · simp only [run_tool_sandbox_part]
        rw [hg]
        exact get_error_msg_length_le name last

/-- Branch characterization of `run_tool_from_source`: `ValueError` exactly
on invalid JSON or an unsupported source type, `AssertionError` when the
tool name never resolves, otherwise the `FunctionReturn` built by the
`try` body. -/
lemma run_tool_result (args_valid : Bool) (tst rname : Option String)
    (sandbox : SandboxOutcome) :
    run_tool_from_source args_valid tst rname sandbox =
      if args_valid = false then
        .error (.valueError "Invalid JSON string for tool_args")
      else if tst ≠ none ∧ tst ≠ some "python" then
        .error (.valueError "Only Python source code is supported at this time")
      else
        match rname with
        | none => .error (.assertionError "Failed to create tool object")
        | some name => .ok (run_tool_sandbox_part name sandbox) := by
  cases args_valid with
  | false => rfl
  | true =>
    rw [if_neg (by simp)]
    by_cases hc : tst ≠ none ∧ tst ≠ some "python"
    · have hb : (tst != none && tst != some "python") = true := by
        simp [bne_iff_ne, hc.1, hc.2]
      unfold run_tool_from_source
      rw [if_neg (by simp), if_pos hb, if_pos hc]
    · have hb : (tst != none && tst != some "python") = false := by
        cases tst with
        | none => simp
        | some s =>
          have hs : s = "python" := by
            by_contra hne
            exact hc ⟨by simp, by simp [hne]⟩
          subst hs
          simp
      unfold run_tool_from_source
      rw [if_neg (by simp), if_neg (by simp [hb]), if_neg hc]

/-- C9 (confirmed): the error text built by `get_error_msg_for_func_return`
is always at most `MAX_ERROR_MESSAGE_CHAR_LIMIT` characters, and whenever
the sandbox raises or emits error output, `run_tool_from_source` returns a
`FunctionReturn` with `status = "error"` whose text respects that limit. -/
theorem c9_tool_error_status_and_truncation (name emsg : String)
    (sandbox : SandboxOutcome) (h : sandboxHasError sandbox = true) :
    (get_error_msg_for_func_return name emsg).length ≤
      MAX_ERROR_MESSAGE_CHAR_LIMIT ∧
    ∃ fr, run_tool_from_source true none (some name) sandbox = .ok fr ∧
      fr.status = "error" ∧
      fr.function_return.length ≤ MAX_ERROR_MESSAGE_CHAR_LIMIT := by
  refine ⟨get_error_msg_length_le name emsg,
    run_tool_sandbox_part name sandbox, ?_, ?_, ?_⟩
  · rw [run_tool_result]
    rw [if_neg (by simp), if_neg (by simp)]
  · exact (run_tool_sandbox_part_err name sandbox h).1
  · exact (run_tool_sandbox_part_err name sandbox h).2

/-- C9 (witness): a sandbox call that raises. -/
theorem c9_tool_error_status_and_truncation_witness :
    ∃ fr, run_tool_from_source true none (some "t") (.raised "boom" "tb") = .ok fr ∧
      fr.status = "error" ∧
      fr.function_return.length ≤ MAX_ERROR_MESSAGE_CHAR_LIMIT :=
  (c9_tool_error_status_and_truncation "t" "m" (.raised "boom" "tb") rfl).2

/-- C10 (confirmed): `run_tool_from_source` raises `ValueError` exactly when
the tool arguments are not valid JSON or the source type is neither absent
nor `"python"`; on every other input on which the tool object resolves a
name, it returns a `FunctionReturn` — it never propagates the sandbox
exception — whose status is `"error"` exactly on sandbox failure or
non-whitespace stderr output and `"success"` otherwise. -/
theorem c10_value_error_iff_and_no_propagation (args_valid : Bool)
    (tst rname : Option String) (sandbox : SandboxOutcome) :
    (isValueError (run_tool_from_source args_valid tst rname sandbox) = true ↔
      (args_valid = false ∨ (tst ≠ none ∧ tst ≠ some "python"))) ∧
    (∀ name, rname = some name → args_valid = true →
      (tst = none ∨ tst = some "python") →
      ∃ fr, run_tool_from_source args_valid tst rname sandbox = .ok fr ∧
        fr.status = if sandboxHasError sandbox then "error" else "success") := by
  constructor
  · rw [run_tool_result]
    split_ifs with h1 h2
    · simp [isValueError, h1]
    · simp [isValueError, h2]
    · cases rname with
      | none => simp [isValueError, h1, h2]
      | some name => simp [isValueError, h1, h2]
  · intro name hr hv htst
    rw [run_tool_result, hr]
    rw [if_neg (by simp [hv]), if_neg (by rcases htst with h | h <;> simp [h])]
    exact ⟨_, rfl, run_tool_sandbox_part_status name sandbox⟩

/-- C10 (witness): a clean sandbox run with valid arguments and the default
source type. -/
theorem c10_value_error_iff_and_no_propagation_witness :
    ∃ fr, run_tool_from_source true none (some "t") (.ran ⟨"42", [], []⟩) = .ok fr ∧
      fr.status =
        if sandboxHasError (.ran ⟨"42", [], []⟩) then "error" else "success" :=
  (c10_value_error_iff_and_no_propagation true none (some "t")
    (.ran ⟨"42", [], []⟩)).2 "t" rfl rfl (Or.inl rfl)

end Letta
